import Mathlib

/-!
Verification development for the dex-hedger repository (desktop-hedger).

Shallow embedding of the core data model (core/types.py), the reconciliation
worker (core/workers.py), the two exchange adapters
(core/wrappers/pacifica.py, core/wrappers/lighter.py) and the open-orders
store update (main.py).  Python floats are modelled as exact rationals (ℚ):
every algorithm verified here is a comparison/branching algorithm whose
structure does not depend on rounding, and the spec states its tolerances
as exact decimal constants.
-/

namespace DexHedger

/-! ## Core data model (core/types.py) -/

/-- core/types.py Direction enum. -/
inductive Direction where
  | LONG
  | SHORT
  | NONE
deriving DecidableEq

/-- core/types.py OrderType enum. -/
inductive OrderType where
  | MKT
  | LMT
deriving DecidableEq

/-- core/types.py ExchangeId enum. -/
inductive ExchangeId where
  | PACIFICA
  | LIGHTER
deriving DecidableEq

/-- core/types.py SupportedSymbol enum. -/
inductive SupportedSymbol where
  | BTC
  | ETH
  | SOL
deriving DecidableEq

/-- core/types.py Position dataclass. -/
structure Position where
  direction : Direction
  quantity : ℚ
  entryPrice : ℚ
deriving DecidableEq

/-- core/types.py ExchangeState dataclass. -/
structure ExchangeState where
  name : String
  position : Position
  pnl : ℚ
  balance : ℚ
  currency : String
  leverage : Int
deriving DecidableEq

/-- core/types.py Order dataclass. -/
structure Order where
  id : String
  exchangeId : ExchangeId
  type : OrderType
  direction : Direction
  quantity : ℚ
  filledQuantity : ℚ
  price : ℚ
  timestamp : Int
deriving DecidableEq

/-- core/types.py ApiCredentials dataclass.  Optional fields model
Python `Optional[...] = None` defaults. -/
structure ApiCredentials where
  apiKey : String
  apiSecret : String
  accountAddress : Option String := none
  accountId : Option Int := none
  l1Address : Option String := none
deriving DecidableEq

/-! ## Reconciliation worker (core/workers.py, AutoBalanceWorker.check_balance)

`check_balance` reads `self._state_a` / `self._state_b` (either may be None),
computes signed quantities (+qty for LONG, -qty for SHORT, 0 for NONE), the
discrepancy = signedA + signedB, and when `abs(discrepancy) > 0.000001`
issues exactly one `api_b.create_order(symbol, MKT, dir, abs(discrepancy))`
with dir = SHORT if discrepancy > 0 else LONG.  The model returns the list
of orders issued on B during the tick (the create_order call is made exactly
once on the true branch, whether or not the subsequent HTTP call fails). -/

/-- The signed-quantity computation of workers.py lines 71-81. -/
def signed_qty (p : Position) : ℚ :=
  match p.direction with
  | Direction.LONG => p.quantity
  | Direction.SHORT => -p.quantity
  | Direction.NONE => 0

/-- Discrepancy between the two sides, workers.py line 85. -/
def discrepancy (sa sb : ExchangeState) : ℚ :=
  signed_qty sa.position + signed_qty sb.position

/-- Arguments of the single `api_b.create_order` call issued by the worker. -/
structure CorrectionOrder where
  symbol : SupportedSymbol
  order_type : OrderType
  direction : Direction
  quantity : ℚ
deriving DecidableEq

/-- AutoBalanceWorker.check_balance (workers.py lines 61-106), returning the
list of corrective orders issued on the B adapter during this tick. -/
def check_balance (symbol : SupportedSymbol)
    (state_a state_b : Option ExchangeState) : List CorrectionOrder :=
  match state_a, state_b with
  | some sa, some sb =>
    let d := signed_qty sa.position + signed_qty sb.position
    if 1/1000000 < |d| then
      [{ symbol := symbol
         order_type := OrderType.MKT
         direction := if 0 < d then Direction.SHORT else Direction.LONG
         quantity := |d| }]
    else []
  | _, _ => []

/-- Claim C1: on a reconciliation tick with both account states present, if
`abs(d) ≤ 1e-6` no corrective order is issued, and if `abs(d) > 1e-6` exactly
one MARKET order is issued on the B adapter with quantity `abs(d)` and
direction SHORT if `d > 0` else LONG, where `d = signedA + signedB`. -/
theorem check_balance_discrepancy_rule (symbol : SupportedSymbol)
    (sa sb : ExchangeState) :
    (|discrepancy sa sb| ≤ 1/1000000 →
      check_balance symbol (some sa) (some sb) = []) ∧
    (1/1000000 < |discrepancy sa sb| →
      check_balance symbol (some sa) (some sb) =
        [{ symbol := symbol
           order_type := OrderType.MKT
           direction := if 0 < discrepancy sa sb then Direction.SHORT
                        else Direction.LONG
           quantity := |discrepancy sa sb| }]) := by
  simp only [check_balance, discrepancy]
  constructor
  · intro h
    rw [if_neg (not_lt.mpr h)]
  · intro h
    rw [if_pos h]

/-- Spec Scenario 1 instantiating C1: A = LONG 1.0, B = LONG 1.0, so
d = +2.0 and the corrective order is SHORT, quantity 2.0, MARKET. -/
theorem check_balance_discrepancy_rule_witness :
    check_balance SupportedSymbol.BTC
      (some { name := "Pacifica"
              position := { direction := Direction.LONG, quantity := 1, entryPrice := 100 }
              pnl := 0, balance := 1000, currency := "USDC", leverage := 1 })
      (some { name := "Lighter"
              position := { direction := Direction.LONG, quantity := 1, entryPrice := 100 }
              pnl := 0, balance := 1000, currency := "USDT", leverage := 1 }) =
      [{ symbol := SupportedSymbol.BTC
         order_type := OrderType.MKT
         direction := Direction.SHORT
         quantity := 2 }] := by
  have h := (check_balance_discrepancy_rule SupportedSymbol.BTC
    { name := "Pacifica"
      position := { direction := Direction.LONG, quantity := 1, entryPrice := 100 }
      pnl := 0, balance := 1000, currency := "USDC", leverage := 1 }
    { name := "Lighter"
      position := { direction := Direction.LONG, quantity := 1, entryPrice := 100 }
      pnl := 0, balance := 1000, currency := "USDT", leverage := 1 }).2
    (by norm_num [discrepancy, signed_qty, abs_two])
  rw [h]
  norm_num [discrepancy, signed_qty, abs_two]

/-! ## Position translation in the adapters' poll cycles (claim C2)

PacificaAPI._poll_data (pacifica.py lines 343-354): the positions response
carries a list under `data`; the code takes its first entry if the list is
nonempty.  For a present entry, quantity is `positionSize` as-is (no zero
check) and direction is LONG when `side == 'LONG'`, otherwise SHORT.

LighterAPI._poll_data (lighter.py lines 312-321): the positions response is
a single object (falsy `{}` when absent); the LONG/SHORT branch is guarded
by `float(position_data['size']) > 0`, otherwise NONE/0/0. -/

/-- Position entry of Pacifica's positions payload, the fields read by
_poll_data. -/
structure PacificaPositionPayload where
  positionSize : ℚ
  side : String
  entryPrice : ℚ
  unrealisedPnl : ℚ
deriving DecidableEq

/-- Position object of Lighter's positions payload, the fields read by
_poll_data.  `none` models both an absent and an empty (falsy) payload. -/
structure LighterPositionPayload where
  size : ℚ
  side : String
  entry_price : ℚ
  unrealised_pnl : ℚ
deriving DecidableEq

/-- The (Position, pnl) translation of PacificaAPI._poll_data. -/
def pacifica_translate_position (data : List PacificaPositionPayload) :
    Position × ℚ :=
  match data.head? with
  | some pos =>
    ({ direction := if pos.side = "LONG" then Direction.LONG else Direction.SHORT
       quantity := pos.positionSize
       entryPrice := pos.entryPrice }, pos.unrealisedPnl)
  | none => ({ direction := Direction.NONE, quantity := 0, entryPrice := 0 }, 0)

/-- The (Position, pnl) translation of LighterAPI._poll_data. -/
def lighter_translate_position (data : Option LighterPositionPayload) :
    Position × ℚ :=
  match data with
  | some pos =>
    if 0 < pos.size then
      ({ direction := if pos.side = "B" then Direction.LONG else Direction.SHORT
         quantity := pos.size
         entryPrice := pos.entry_price }, pos.unrealised_pnl)
    else ({ direction := Direction.NONE, quantity := 0, entryPrice := 0 }, 0)
  | none => ({ direction := Direction.NONE, quantity := 0, entryPrice := 0 }, 0)

/-- Claim C2 counterexample: a present Pacifica position entry with
`positionSize = 0` translates to direction LONG with quantity 0, so the
invariant `direction = NONE ↔ quantity = 0` fails for Pacifica's
translation. -/
theorem pacifica_position_invariant_cex :
    ¬ (((pacifica_translate_position
          [{ positionSize := 0, side := "LONG", entryPrice := 100,
             unrealisedPnl := 0 }]).1.direction = Direction.NONE) ↔
       ((pacifica_translate_position
          [{ positionSize := 0, side := "LONG", entryPrice := 100,
             unrealisedPnl := 0 }]).1.quantity = 0)) := by
  simp [pacifica_translate_position]

/-- Claim C2 as amended: the invariant `direction = NONE ↔ quantity = 0`
holds unconditionally for every Position produced by Lighter's poll
translation, and for every Position produced by Pacifica's poll translation
whose payload, when it has a first entry, carries a nonzero positionSize. -/
theorem position_translation_invariant (ld : Option LighterPositionPayload)
    (pd : List PacificaPositionPayload)
    (h : ∀ pos ∈ pd.head?, pos.positionSize ≠ 0) :
    ((lighter_translate_position ld).1.direction = Direction.NONE ↔
      (lighter_translate_position ld).1.quantity = 0) ∧
    ((pacifica_translate_position pd).1.direction = Direction.NONE ↔
      (pacifica_translate_position pd).1.quantity = 0) := by
  constructor
  · cases ld with
    | none => simp [lighter_translate_position]
    | some pos =>
      by_cases hs : 0 < pos.size
      · simp only [lighter_translate_position, if_pos hs]
        constructor
        · intro hdir
          by_cases hb : pos.side = "B" <;> simp [hb] at hdir
        · intro hq
          exact absurd hq hs.ne'
      · simp [lighter_translate_position, if_neg hs]
  · cases pd with
    | nil => simp [pacifica_translate_position]
    | cons pos tl =>
      have hne : pos.positionSize ≠ 0 := h pos (by simp)
      simp only [pacifica_translate_position, List.head?_cons]
      constructor
      · intro hdir
        by_cases hl : pos.side = "LONG" <;> simp [hl] at hdir
      · intro hq
        exact absurd hq hne

/-- Witness for the amended C2 at concrete payloads: Lighter with a B-side
size-2 position and Pacifica with a LONG size-1 position both satisfy the
invariant. -/
theorem position_translation_invariant_witness :
    ((lighter_translate_position
        (some { size := 2, side := "B", entry_price := 50,
                unrealised_pnl := 1 })).1.direction = Direction.NONE ↔
      (lighter_translate_position
        (some { size := 2, side := "B", entry_price := 50,
                unrealised_pnl := 1 })).1.quantity = 0) ∧
    ((pacifica_translate_position
        [{ positionSize := 1, side := "LONG", entryPrice := 100,
           unrealisedPnl := 5 }]).1.direction = Direction.NONE ↔
      (pacifica_translate_position
        [{ positionSize := 1, side := "LONG", entryPrice := 100,
           unrealisedPnl := 5 }]).1.quantity = 0) :=
  position_translation_invariant
    (some { size := 2, side := "B", entry_price := 50, unrealised_pnl := 1 })
    [{ positionSize := 1, side := "LONG", entryPrice := 100, unrealisedPnl := 5 }]
    (by intro pos hpos; simp at hpos; subst hpos; norm_num)

/-! ## Open-orders store update (main.py, MainWindow.on_orders_update) -/

/-- MainWindow.on_orders_update (main.py lines 1521-1532): keep the orders
of every other exchange, then append the incoming list; the stored list for
`ex_id` is replaced wholesale. -/
def on_orders_update (open_orders : List Order) (ex_id : ExchangeId)
    (orders : List Order) : List Order :=
  (open_orders.filter (fun o => o.exchangeId ≠ ex_id)) ++ orders

/-- Claim C7: after an open-orders update event for exchange identity `x`
(every order in the event payload carries identity `x`, as both adapters
guarantee), the stored orders of identity `x` are exactly the event's list,
and for every other identity `y` the stored orders are exactly the ones
stored before — unchanged, in order, and unduplicated. -/
theorem on_orders_update_wholesale (store : List Order) (x : ExchangeId)
    (orders : List Order) (h : ∀ o ∈ orders, o.exchangeId = x) :
    (on_orders_update store x orders).filter (fun o => o.exchangeId = x) =
      orders ∧
    ∀ y, y ≠ x →
      (on_orders_update store x orders).filter (fun o => o.exchangeId = y) =
        store.filter (fun o => o.exchangeId = y) := by
  constructor
  · have horders : orders.filter (fun o => decide (o.exchangeId = x)) = orders :=
      List.filter_eq_self.mpr (by intro o ho; simpa using h o ho)
    have hstore : (store.filter (fun o => !decide (o.exchangeId = x))).filter
        (fun o => decide (o.exchangeId = x)) = [] := by
      induction store with
      | nil => rfl
      | cons a tl ih =>
        by_cases ha : a.exchangeId = x <;> simp [List.filter_cons, ha, ih]
    simp only [on_orders_update, ne_eq, decide_not, List.filter_append]
    rw [hstore, horders]
    rfl
  · intro y hy
    have horders : orders.filter (fun o => decide (o.exchangeId = y)) = [] := by
      apply List.filter_eq_nil_iff.mpr
      intro o ho
      have := h o ho
      simp [this, hy.symm]
    have hstore : (store.filter (fun o => !decide (o.exchangeId = x))).filter
        (fun o => decide (o.exchangeId = y)) =
        store.filter (fun o => decide (o.exchangeId = y)) := by
      induction store with
      | nil => rfl
      | cons a tl ih =>
        by_cases ha : a.exchangeId = x
        · have hay : ¬ a.exchangeId = y := by rw [ha]; exact fun hc => hy hc.symm
          simp [List.filter_cons, ha, hay, hy, Ne.symm hy, ih]
        · by_cases hay : a.exchangeId = y <;>
            simp [List.filter_cons, ha, hay, hy, Ne.symm hy, ih]
    simp only [on_orders_update, ne_eq, decide_not, List.filter_append]
    rw [hstore, horders]
    simp

/-- Witness for C7 at a concrete store holding one Pacifica and one Lighter
order while a Lighter update arrives: the Pacifica order survives
unchanged and the Lighter list is replaced. -/
theorem on_orders_update_wholesale_witness :
    (on_orders_update
        [{ id := "p1", exchangeId := ExchangeId.PACIFICA, type := OrderType.LMT,
           direction := Direction.LONG, quantity := 1, filledQuantity := 0,
           price := 10, timestamp := 5 },
         { id := "l1", exchangeId := ExchangeId.LIGHTER, type := OrderType.LMT,
           direction := Direction.SHORT, quantity := 2, filledQuantity := 0,
           price := 11, timestamp := 6 }]
        ExchangeId.LIGHTER
        [{ id := "l2", exchangeId := ExchangeId.LIGHTER, type := OrderType.MKT,
           direction := Direction.LONG, quantity := 3, filledQuantity := 0,
           price := 12, timestamp := 7 }]).filter
      (fun o => o.exchangeId = ExchangeId.PACIFICA) =
      [{ id := "p1", exchangeId := ExchangeId.PACIFICA, type := OrderType.LMT,
         direction := Direction.LONG, quantity := 1, filledQuantity := 0,
         price := 10, timestamp := 5 },
       { id := "l1", exchangeId := ExchangeId.LIGHTER, type := OrderType.LMT,
         direction := Direction.SHORT, quantity := 2, filledQuantity := 0,
         price := 11, timestamp := 6 }].filter
        (fun o => o.exchangeId = ExchangeId.PACIFICA) := by
  have h := (on_orders_update_wholesale
    [{ id := "p1", exchangeId := ExchangeId.PACIFICA, type := OrderType.LMT,
       direction := Direction.LONG, quantity := 1, filledQuantity := 0,
       price := 10, timestamp := 5 },
     { id := "l1", exchangeId := ExchangeId.LIGHTER, type := OrderType.LMT,
       direction := Direction.SHORT, quantity := 2, filledQuantity := 0,
       price := 11, timestamp := 6 }]
    ExchangeId.LIGHTER
    [{ id := "l2", exchangeId := ExchangeId.LIGHTER, type := OrderType.MKT,
       direction := Direction.LONG, quantity := 3, filledQuantity := 0,
       price := 12, timestamp := 7 }]
    (by intro o ho; simp at ho; rw [ho])).2 ExchangeId.PACIFICA (by simp)
  exact h

/-! ## Cooperative cancellation polling in AutoBalanceWorker.run (claim C8)

workers.py: `run` loops `while self.is_running`.  The waiting branches
(lines 40-48) call `self.sleep(self.interval)` — a blocking whole-interval
sleep — and re-check the flag only at the loop head.  The inter-tick sleep
(lines 56-59) is `while slept_time < self.interval and self.is_running:
self.msleep(100)`, checking the flag every 0.1 s.  After a successful
corrective order, check_balance (line 112) calls `self.sleep(3)` — a
blocking 3-second sleep with no flag check.  The model lists, per loop
iteration, the durations (seconds) slept between consecutive reads of
`is_running`. -/

/-- Gaps between flag reads during the inter-tick sleep loop: the loop runs
until the 0.1-per-iteration accumulator reaches the interval, checking the
flag each iteration, so ⌈10·interval⌉ gaps of 0.1 s each (the accumulator is
modelled exactly over ℚ). -/
def inter_tick_gaps (interval : ℚ) : List ℚ :=
  List.replicate (⌈10 * interval⌉).toNat (1/10)

/-- Gaps between consecutive `is_running` reads during one iteration of
AutoBalanceWorker.run, by branch: waiting for APIs, waiting for state data,
or a normal tick (with the 3 s post-correction sleep when check_balance
issued an order). -/
def run_iteration_gaps (has_apis has_states : Bool) (interval : ℚ)
    (order_issued : Bool) : List ℚ :=
  if has_apis = false then [interval]
  else if has_states = false then [interval]
  else (if order_issued = true then [(3:ℚ)] else []) ++ inter_tick_gaps interval

/-- Claim C8 counterexample: in the waiting-for-APIs branch at the default
interval of 3 s, the worker sleeps 3 s between flag reads — the flag is not
polled at sub-second frequency in that state. -/
theorem worker_cancellation_poll_cex :
    (3:ℚ) ∈ run_iteration_gaps false true 3 false ∧ ¬ ((3:ℚ) < 1) := by
  constructor
  · simp [run_iteration_gaps]
  · norm_num

/-- Claim C8 as amended: only the inter-tick sleep polls the cancellation
flag every 100 ms (all its gaps are 0.1 s); the waiting-for-APIs and
waiting-for-state branches sleep one full interval between flag reads, and
a tick that issued a correction first sleeps 3 s unpolled, so stop latency
is bounded by the interval (resp. 3 s) in those states, not sub-second. -/
theorem worker_cancellation_poll_amended (interval : ℚ) (b c : Bool) :
    (∀ g ∈ inter_tick_gaps interval, g = 1/10) ∧
    run_iteration_gaps false b interval c = [interval] ∧
    run_iteration_gaps true false interval c = [interval] ∧
    run_iteration_gaps true true interval true = 3 :: inter_tick_gaps interval ∧
    run_iteration_gaps true true interval false = inter_tick_gaps interval := by
  refine ⟨?_, ?_, ?_, ?_, ?_⟩
  · intro g hg
    exact List.eq_of_mem_replicate hg
  · simp [run_iteration_gaps]
  · simp [run_iteration_gaps]
  · simp [run_iteration_gaps]
  · simp [run_iteration_gaps]

/-- Witness for the amended C8 at the default interval 3: the inter-tick
gaps are thirty 0.1 s segments and the waiting branch is one 3 s segment. -/
theorem worker_cancellation_poll_amended_witness :
    ((1:ℚ)/10 = 1/10) ∧
    run_iteration_gaps false true 3 false = [3] ∧
    run_iteration_gaps true true 3 false = List.replicate 30 (1/10) := by
  have h := worker_cancellation_poll_amended 3 true false
  refine ⟨h.1 (1/10) ?_, h.2.1, ?_⟩
  · have h30 : inter_tick_gaps 3 = List.replicate 30 (1/10) := by
      rw [inter_tick_gaps]
      norm_num
      decide
    rw [h30]
    exact List.mem_replicate.mpr ⟨by norm_num, rfl⟩
  · rw [h.2.2.2.2, inter_tick_gaps]
    norm_num
    decide

/-! ## Poll-cycle failure handling (claim C3): the Lighter half

Lighter: the fetches call requests.get/post directly, so a connectivity
failure propagates as a RequestException to LighterAPI._poll_data (lines
352-356), which logs and calls stop_streaming; _handle_response re-raises
HTTP 4xx/5xx (structured error body) and decode failures as a plain
Exception, which is only logged.  QTimer schedules are cancelled only by
stop_streaming.

The Pacifica half of C3 is modelled after the signer section below: its
Client._request builds the signature before anything else, and the signature
builder raises on every input, so no Pacifica fetch ever reaches HTTP. -/

/-- Outcome of one underlying HTTP fetch as distinguished by the requests
library: success, an HTTP 4xx/5xx error with a structured body
(HTTPError), a network-connectivity failure (RequestException such as
ConnectionError), or an undecodable body. -/
inductive FetchOutcome where
  | ok
  | httpError
  | netError
  | badJson
deriving DecidableEq

/-- What one poll cycle did: which of the three update events were emitted,
whether an error was logged, and whether stop_streaming was called
(cancelling the periodic QTimer schedule). -/
structure PollCycleResult where
  price_emitted : Bool
  state_emitted : Bool
  orders_emitted : Bool
  error_logged : Bool
  streaming_stopped : Bool
deriving DecidableEq

/-- Whether this fetch outcome surfaces in LighterAPI._poll_data as a
RequestException (network-connectivity failure) rather than the plain
Exception re-raised by _handle_response. -/
def lighter_is_net_failure : FetchOutcome → Bool
  | FetchOutcome.netError => true
  | _ => false

/-- LighterAPI._poll_data with the client set and the timer active, over the
outcomes of its four fetches in source order (market price, collateral,
positions, open orders).  The first failure aborts the rest of the cycle
and is logged; only a network-connectivity failure also stops streaming. -/
def lighter_poll_data (price collateral positions orders : FetchOutcome) :
    PollCycleResult :=
  if price ≠ FetchOutcome.ok then
    ⟨false, false, false, true, lighter_is_net_failure price⟩
  else if collateral ≠ FetchOutcome.ok then
    ⟨true, false, false, true, lighter_is_net_failure collateral⟩
  else if positions ≠ FetchOutcome.ok then
    ⟨true, false, false, true, lighter_is_net_failure positions⟩
  else if orders ≠ FetchOutcome.ok then
    ⟨true, true, false, true, lighter_is_net_failure orders⟩
  else ⟨true, true, true, false, false⟩

/-! ## Order/leverage methods before connect (claim C10)

Every set_leverage / create_order / cancel_order / cancel_all_orders body in
both wrappers starts with `if not self.client: return` — before any log
line, HTTP call or deferred re-poll, and nothing in the `return` path can
raise.  The models list the events each method produces, in source order,
given whether the client is set and whether the call reports an error.
The connected branches transcribe the method bodies as written; for the
Pacifica wrappers they are unreachable in the running program (connect
always fails, so self.client stays None, and even a hand-built client's
_request would return the signing-error dict without issuing HTTP — see the
signer section), and the claim C10 theorem uses only the client-is-None
branch. -/

/-- core/types.py LogLevel enum. -/
inductive LogLevel where
  | INFO
  | SUCCESS
  | WARN
  | ERROR
deriving DecidableEq

/-- Observable events of a wrapper method: an emitted log line, an HTTP
request through the client, a QTimer.singleShot(500, _poll_data). -/
inductive AdapterEvent where
  | log (level : LogLevel)
  | http
  | singleShot
deriving DecidableEq

/-- PacificaAPI.set_leverage (pacifica.py lines 394-404). -/
def pacifica_set_leverage (client_connected request_fails : Bool) :
    List AdapterEvent :=
  if client_connected = false then []
  else
    [AdapterEvent.log LogLevel.INFO, AdapterEvent.http] ++
      (if request_fails then [AdapterEvent.log LogLevel.ERROR]
       else [AdapterEvent.log LogLevel.SUCCESS, AdapterEvent.singleShot])

/-- PacificaAPI.create_order (pacifica.py lines 406-429). -/
def pacifica_create_order (client_connected request_fails : Bool) :
    List AdapterEvent :=
  if client_connected = false then []
  else
    [AdapterEvent.log LogLevel.INFO, AdapterEvent.http] ++
      (if request_fails then [AdapterEvent.log LogLevel.ERROR]
       else [AdapterEvent.log LogLevel.SUCCESS, AdapterEvent.singleShot])

/-- PacificaAPI.cancel_order (pacifica.py lines 432-443). -/
def pacifica_cancel_order (client_connected request_fails : Bool) :
    List AdapterEvent :=
  if client_connected = false then []
  else
    [AdapterEvent.log LogLevel.INFO, AdapterEvent.http] ++
      (if request_fails then [AdapterEvent.log LogLevel.ERROR]
       else [AdapterEvent.log LogLevel.SUCCESS, AdapterEvent.singleShot])

/-- PacificaAPI.cancel_all_orders (pacifica.py lines 445-456); its opening
log line is at WARN level. -/
def pacifica_cancel_all_orders (client_connected request_fails : Bool) :
    List AdapterEvent :=
  if client_connected = false then []
  else
    [AdapterEvent.log LogLevel.WARN, AdapterEvent.http] ++
      (if request_fails then [AdapterEvent.log LogLevel.ERROR]
       else [AdapterEvent.log LogLevel.SUCCESS, AdapterEvent.singleShot])

/-- LighterAPI.set_leverage (lighter.py lines 359-367). -/
def lighter_set_leverage (client_connected request_fails : Bool) :
    List AdapterEvent :=
  if client_connected = false then []
  else
    [AdapterEvent.log LogLevel.INFO, AdapterEvent.http] ++
      (if request_fails then [AdapterEvent.log LogLevel.ERROR]
       else [AdapterEvent.log LogLevel.SUCCESS, AdapterEvent.singleShot])

/-- LighterAPI.create_order (lighter.py lines 369-390). -/
def lighter_create_order (client_connected request_fails : Bool) :
    List AdapterEvent :=
  if client_connected = false then []
  else
    [AdapterEvent.log LogLevel.INFO, AdapterEvent.http] ++
      (if request_fails then [AdapterEvent.log LogLevel.ERROR]
       else [AdapterEvent.log LogLevel.SUCCESS, AdapterEvent.singleShot])

/-- LighterAPI.cancel_order (lighter.py lines 393-402). -/
def lighter_cancel_order (client_connected request_fails : Bool) :
    List AdapterEvent :=
  if client_connected = false then []
  else
    [AdapterEvent.log LogLevel.INFO, AdapterEvent.http] ++
      (if request_fails then [AdapterEvent.log LogLevel.ERROR]
       else [AdapterEvent.log LogLevel.SUCCESS, AdapterEvent.singleShot])

/-- LighterAPI.cancel_all_orders (lighter.py lines 404-413); its opening
log line is at WARN level. -/
def lighter_cancel_all_orders (client_connected request_fails : Bool) :
    List AdapterEvent :=
  if client_connected = false then []
  else
    [AdapterEvent.log LogLevel.WARN, AdapterEvent.http] ++
      (if request_fails then [AdapterEvent.log LogLevel.ERROR]
       else [AdapterEvent.log LogLevel.SUCCESS, AdapterEvent.singleShot])

/-- Claim C10: with no prior successful connect (client is None), each of
the eight order/leverage methods produces no event at all — no HTTP
request, no log line, no deferred re-poll (and the Python body is a bare
`return`, so nothing is raised) — whatever the would-be request outcome. -/
theorem unconnected_methods_silent (request_fails : Bool) :
    pacifica_set_leverage false request_fails = [] ∧
    pacifica_create_order false request_fails = [] ∧
    pacifica_cancel_order false request_fails = [] ∧
    pacifica_cancel_all_orders false request_fails = [] ∧
    lighter_set_leverage false request_fails = [] ∧
    lighter_create_order false request_fails = [] ∧
    lighter_cancel_order false request_fails = [] ∧
    lighter_cancel_all_orders false request_fails = [] := by
  cases request_fails <;> decide

/-! ## String, JSON and byte helpers shared by the two signers

Python values appearing in the SDK clients' params dicts are strings, ints
and bools; floats never reach the signed strings (sizes and prices are
stringified first).  Bytes are modelled as lists of Nat < 256. -/

/-- A Python parameter value as found in the params/data dicts the clients
build. -/
inductive PyVal where
  | str (s : String)
  | int (n : Int)
  | bool (b : Bool)
deriving DecidableEq

/-- Python str() rendering, as used by the f-string interpolation in
Pacifica's query string. -/
def PyVal.pyStr : PyVal → String
  | PyVal.str s => s
  | PyVal.int n => toString n
  | PyVal.bool b => if b then "True" else "False"

/-- Lower-case hex digit. -/
def hex_digit (n : Nat) : Char := "0123456789abcdef".toList.getD n '0'

/-- Four-digit hex rendering of a code point, for JSON \u escapes. -/
def hex4 (n : Nat) : String :=
  String.mk [hex_digit (n / 4096 % 16), hex_digit (n / 256 % 16),
             hex_digit (n / 16 % 16), hex_digit (n % 16)]

/-- json.dumps character escaping with the default ensure_ascii=True: short
escapes for the usual control characters, \uXXXX for every character
outside the printable ASCII range 0x20-0x7E (characters beyond the basic
plane would use surrogate pairs; no input in this codebase leaves ASCII). -/
def json_escape_char (c : Char) : String :=
  if c = '"' then "\\\""
  else if c = '\\' then "\\\\"
  else if c = '\n' then "\\n"
  else if c = '\t' then "\\t"
  else if c = '\r' then "\\r"
  else if c.toNat = 8 then "\\b"
  else if c.toNat = 12 then "\\f"
  else if c.toNat < 32 ∨ 126 < c.toNat then "\\u" ++ hex4 c.toNat
  else String.singleton c

/-- json.dumps string escaping. -/
def json_escape (s : String) : String :=
  String.join (s.toList.map json_escape_char)

/-- A JSON string literal. -/
def json_quote (s : String) : String := "\"" ++ json_escape s ++ "\""

/-- json.dumps rendering of one Python value. -/
def PyVal.jsonRender : PyVal → String
  | PyVal.str s => json_quote s
  | PyVal.int n => toString n
  | PyVal.bool b => if b then "true" else "false"

/-- json.dumps of a dict with explicit separators: `item_sep` between
members and `kv_sep` between key and value.  The default call uses
(", ", ": "); `separators=(',', ':')` gives the compact form.  Member order
is the dict's insertion order (sort_keys is never passed in this
codebase). -/
def json_dumps_obj (item_sep kv_sep : String)
    (params : List (String × PyVal)) : String :=
  "\x7b" ++
    String.intercalate item_sep
      (params.map (fun kv => json_quote kv.1 ++ kv_sep ++ kv.2.jsonRender)) ++
    "\x7d"

/-- Python sorted(params.items()): keys are unique in a dict, so the sort
orders by key (stable). -/
def sorted_params (params : List (String × PyVal)) : List (String × PyVal) :=
  params.mergeSort (fun a b => a.1 ≤ b.1)

/-- The '&'-joined key=value query string of pacifica.py line 89. -/
def query_string_of (params : List (String × PyVal)) : String :=
  String.intercalate "&"
    ((sorted_params params).map (fun kv => kv.1 ++ "=" ++ kv.2.pyStr))

/-- UTF-8 bytes of a string, as Python's str.encode('utf-8'). -/
def utf8_bytes (s : String) : List Nat :=
  s.toUTF8.toList.map (fun b => b.toNat)

/-- Lower-case hex rendering of a byte string, as hashlib's hexdigest. -/
def to_hex (bs : List Nat) : String :=
  String.join (bs.map (fun b => String.mk [hex_digit (b / 16 % 16), hex_digit (b % 16)]))

/-! ## Base58 (the Python `base58` package, Bitcoin alphabet) -/

/-- The Bitcoin base58 alphabet. -/
def b58_alphabet : List Char :=
  "123456789ABCDEFGHJKLMNPQRSTUVWXYZabcdefghijkmnopqrstuvwxyz".toList

/-- Index of a character in the alphabet; none for a character outside it
(base58.b58decode raises on those). -/
def b58_char_index (c : Char) : Option Nat := b58_alphabet.indexOf? c

/-- Big-endian base-58 value of a character list; none on a character
outside the alphabet. -/
def b58_decode_nat (s : List Char) : Option Nat :=
  s.foldl
    (fun acc c => acc.bind (fun n => (b58_char_index c).map (fun d => n * 58 + d)))
    (some 0)

/-- Big-endian bytes of a Nat (no leading zero byte); structural fuel
recursion (the fuel n dominates the number of base-256 digits) so the
definition reduces inside the kernel. -/
def nat_to_be_bytes_aux : Nat → Nat → List Nat
  | 0, _ => []
  | fuel + 1, n =>
    if n = 0 then [] else nat_to_be_bytes_aux fuel (n / 256) ++ [n % 256]

/-- Big-endian bytes of a Nat (no leading zero byte). -/
def nat_to_be_bytes (n : Nat) : List Nat := nat_to_be_bytes_aux n n

/-- Count of leading '1' characters (each stands for one zero byte). -/
def b58_leading_ones (s : List Char) : Nat :=
  (s.takeWhile (fun c => c = '1')).length

/-- base58.b58decode: leading-'1' zero bytes followed by the big-endian
bytes of the base-58 value; none (a raise) on invalid characters. -/
def b58decode (s : String) : Option (List Nat) :=
  (b58_decode_nat s.toList).map
    (fun n => List.replicate (b58_leading_ones s.toList) 0 ++ nat_to_be_bytes n)

/-- Base-58 digits of a Nat (no leading '1'); fuel recursion as above. -/
def nat_to_b58_digits_aux : Nat → Nat → List Char
  | 0, _ => []
  | fuel + 1, n =>
    if n = 0 then []
    else nat_to_b58_digits_aux fuel (n / 58) ++ [b58_alphabet.getD (n % 58) '1']

/-- Base-58 digits of a Nat (no leading '1'). -/
def nat_to_b58_digits (n : Nat) : List Char := nat_to_b58_digits_aux n n

/-- Big-endian value of a byte string. -/
def be_bytes_to_nat (bs : List Nat) : Nat :=
  bs.foldl (fun acc b => acc * 256 + b) 0

/-- base58.b58encode: one '1' per leading zero byte, then the base-58
digits of the value. -/
def b58encode (bs : List Nat) : String :=
  String.mk (List.replicate ((bs.takeWhile (fun b => b = 0)).length) '1' ++
    nat_to_b58_digits (be_bytes_to_nat bs))

/-! ## SHA-256 and HMAC-SHA256 (hashlib / hmac of the Python stdlib),
on bytes as Nat lists, words as Nat mod 2^32. -/

/-- Truncate to a 32-bit word. -/
def w32 (n : Nat) : Nat := n % 4294967296

/-- Right rotation of a 32-bit word. -/
def rotr32 (x k : Nat) : Nat := w32 (x / 2 ^ k + x * 2 ^ (32 - k))

/-- SHA-256 round constants (fractional cube roots of the first 64
primes). -/
def sha256_k : List Nat :=
  [1116352408, 1899447441, 3049323471, 3921009573, 961987163, 1508970993,
   2453635748, 2870763221, 3624381080, 310598401, 607225278, 1426881987,
   1925078388, 2162078206, 2614888103, 3248222580, 3835390401, 4022224774,
   264347078, 604807628, 770255983, 1249150122, 1555081692, 1996064986,
   2554220882, 2821834349, 2952996808, 3210313671, 3336571891, 3584528711,
   113926993, 338241895, 666307205, 773529912, 1294757372, 1396182291,
   1695183700, 1986661051, 2177026350, 2456956037, 2730485921, 2820302411,
   3259730800, 3345764771, 3516065817, 3600352804, 4094571909, 275423344,
   430227734, 506948616, 659060556, 883997877, 958139571, 1322822218,
   1537002063, 1747873779, 1955562222, 2024104815, 2227730452, 2361852424,
   2428436474, 2756734187, 3204031479, 3329325298]

/-- SHA-256 initial hash state (fractional square roots of the first 8
primes). -/
def sha256_h0 : List Nat :=
  [1779033703, 3144134277, 1013904242, 2773480762, 1359893119, 2600822924,
   528734635, 1541459225]

/-- Big-endian 8-byte rendering of the bit length. -/
def be8 (n : Nat) : List Nat :=
  [n / 2 ^ 56 % 256, n / 2 ^ 48 % 256, n / 2 ^ 40 % 256, n / 2 ^ 32 % 256,
   n / 2 ^ 24 % 256, n / 2 ^ 16 % 256, n / 2 ^ 8 % 256, n % 256]

/-- SHA-256 padding: 0x80, zeros to 56 mod 64, 8-byte big-endian bit
length. -/
def sha256_pad (msg : List Nat) : List Nat :=
  msg ++ [128] ++ List.replicate ((119 - msg.length % 64) % 64) 0 ++
    be8 (8 * msg.length)

/-- Group bytes four at a time into big-endian 32-bit words. -/
def bytes_to_words : List Nat → List Nat
  | a :: b :: c :: d :: rest =>
    (((a * 256 + b) * 256 + c) * 256 + d) :: bytes_to_words rest
  | _ => []

/-- Split a (padded) byte string into 64-byte blocks; fuel recursion (the
fuel, the list length, dominates the block count). -/
def chunks64_aux : Nat → List Nat → List (List Nat)
  | 0, _ => []
  | fuel + 1, l =>
    if l = [] then [] else l.take 64 :: chunks64_aux fuel (l.drop 64)

/-- Split a (padded) byte string into 64-byte blocks. -/
def chunks64 (l : List Nat) : List (List Nat) := chunks64_aux l.length l

/-- σ0 of the message schedule. -/
def ssig0 (x : Nat) : Nat := rotr32 x 7 ^^^ rotr32 x 18 ^^^ x / 2 ^ 3

/-- σ1 of the message schedule. -/
def ssig1 (x : Nat) : Nat := rotr32 x 17 ^^^ rotr32 x 19 ^^^ x / 2 ^ 10

/-- Σ0 of the compression function. -/
def bsig0 (x : Nat) : Nat := rotr32 x 2 ^^^ rotr32 x 13 ^^^ rotr32 x 22

/-- Σ1 of the compression function. -/
def bsig1 (x : Nat) : Nat := rotr32 x 6 ^^^ rotr32 x 11 ^^^ rotr32 x 25

/-- Append the next scheduled word to a partial schedule. -/
def sha256_extend_step (w : List Nat) : List Nat :=
  let i := w.length
  w ++ [w32 (ssig1 (w.getD (i - 2) 0) + w.getD (i - 7) 0 +
             ssig0 (w.getD (i - 15) 0) + w.getD (i - 16) 0)]

/-- Extend the 16 block words to the 64-word message schedule. -/
def sha256_schedule (ws : List Nat) : List Nat :=
  Nat.iterate sha256_extend_step 48 ws

/-- One compression round on the 8-word state. -/
def sha256_round (st : List Nat) (k wi : Nat) : List Nat :=
  match st with
  | [a, b, c, d, e, f, g, hh] =>
    let ch := (e &&& f) ^^^ ((e ^^^ 4294967295) &&& g)
    let maj := (a &&& b) ^^^ (a &&& c) ^^^ (b &&& c)
    let t1 := w32 (hh + bsig1 e + ch + k + wi)
    let t2 := w32 (bsig0 a + maj)
    [w32 (t1 + t2), a, b, c, w32 (d + t1), e, f, g]
  | other => other

/-- Compress one 16-word block into the hash state. -/
def sha256_compress (hs ws : List Nat) : List Nat :=
  let final := (List.zip sha256_k (sha256_schedule ws)).foldl
    (fun st kw => sha256_round st kw.1 kw.2) hs
  List.zipWith (fun x y => w32 (x + y)) hs final

/-- SHA-256 of a byte string, as a 32-byte string. -/
def sha256 (msg : List Nat) : List Nat :=
  let hs := (chunks64 (sha256_pad msg)).foldl
    (fun hs block => sha256_compress hs (bytes_to_words block)) sha256_h0
  List.flatten (hs.map (fun w =>
    [w / 2 ^ 24 % 256, w / 2 ^ 16 % 256, w / 2 ^ 8 % 256, w % 256]))

/-- HMAC-SHA256 (RFC 2104, block size 64) as Python's
hmac.new(key, msg, hashlib.sha256). -/
def hmac_sha256 (key msg : List Nat) : List Nat :=
  let k0 := if 64 < key.length then sha256 key else key
  let kpad := k0 ++ List.replicate (64 - k0.length) 0
  sha256 ((kpad.map (fun b => b ^^^ 92)) ++
    sha256 ((kpad.map (fun b => b ^^^ 54)) ++ msg))

/-- hmac.new(secret.encode, message.encode, sha256).hexdigest() as used at
lighter.py lines 89-93. -/
def hmac_sha256_hexdigest (secret message : String) : String :=
  to_hex (hmac_sha256 (utf8_bytes secret) (utf8_bytes message))

/-! ## Scheme A: Lighter's shared-secret signer (claim C5) -/

/-- Python str.upper(): uppercase each character (the method names here are
ASCII). -/
def py_upper (s : String) : String := String.mk (s.toList.map Char.toUpper)

/-- The signed message of lighter.py Client._get_auth_headers line 87:
timestamp + method.upper() + endpoint + body, where the body is
`json.dumps(data) if data else ""` with json.dumps' DEFAULT separators
(", " and ": ") — data None and the empty dict are both falsy. -/
def lighter_auth_message (timestamp method endpoint : String)
    (data : Option (List (String × PyVal))) : String :=
  timestamp ++ py_upper method ++ endpoint ++
    (match data with
     | some l => if l = [] then "" else json_dumps_obj ", " ": " l
     | none => "")

/-- lighter.py Client._get_auth_headers (lines 78-100), parameterized by
the timestamp taken at call time (str(int(time.time()*1000))); raises
(models as error) when the api key or secret is unset. -/
def lighter_get_auth_headers (api_key api_secret method endpoint : String)
    (data : Option (List (String × PyVal))) (timestamp : String) :
    Except String (List (String × String)) :=
  if api_key = "" ∨ api_secret = "" then
    Except.error "API key and secret must be set for private endpoints"
  else
    Except.ok
      [("Content-Type", "application/json"),
       ("X-Api-Key", api_key),
       ("X-Timestamp", timestamp),
       ("X-Signature",
        hmac_sha256_hexdigest api_secret
          (lighter_auth_message timestamp method endpoint data))]

/-- Claim C5 counterexample: at a concrete POST body the message actually
signed carries json.dumps' default rendering (", " and ": " separators),
not the compact JSON body the claim names. -/
theorem lighter_auth_message_not_compact_cex :
    lighter_auth_message "1700000000000" "POST" "/api/v2/account/orders"
        (some [("account_id", PyVal.str "1"), ("market", PyVal.str "BTC-PERP")]) ≠
      "1700000000000" ++ "POST" ++ "/api/v2/account/orders" ++
        json_dumps_obj "," ":"
          [("account_id", PyVal.str "1"), ("market", PyVal.str "BTC-PERP")] := by
  decide

/-- Claim C5 as amended: every authenticated Lighter request is signed over
message = timestamp + METHOD + path + body, where the body part is
json.dumps of the request data with its default separators (", ", ": ")
when data is present and nonempty, and the empty string otherwise;
signature = HMAC-SHA256(secret, message) as lowercase hex; transmitted in
the three headers X-Api-Key, X-Timestamp, X-Signature (alongside
Content-Type). -/
theorem lighter_auth_headers_spec (api_key api_secret method endpoint
    timestamp : String) (l : List (String × PyVal))
    (hk : api_key ≠ "") (hs : api_secret ≠ "") (hl : l ≠ []) :
    lighter_get_auth_headers api_key api_secret method endpoint (some l)
        timestamp =
      Except.ok
        [("Content-Type", "application/json"),
         ("X-Api-Key", api_key),
         ("X-Timestamp", timestamp),
         ("X-Signature",
          hmac_sha256_hexdigest api_secret
            (timestamp ++ py_upper method ++ endpoint ++
              json_dumps_obj ", " ": " l))] ∧
    lighter_get_auth_headers api_key api_secret method endpoint none
        timestamp =
      Except.ok
        [("Content-Type", "application/json"),
         ("X-Api-Key", api_key),
         ("X-Timestamp", timestamp),
         ("X-Signature",
          hmac_sha256_hexdigest api_secret
            (timestamp ++ py_upper method ++ endpoint ++ ""))] := by
  constructor
  · rw [lighter_get_auth_headers, if_neg (not_or.mpr ⟨hk, hs⟩)]
    rw [lighter_auth_message, if_neg hl]
  · rw [lighter_get_auth_headers, if_neg (not_or.mpr ⟨hk, hs⟩)]
    rfl

/-- Witness for the amended C5 at a concrete authenticated POST and a
concrete authenticated GET without body. -/
theorem lighter_auth_headers_spec_witness :
    lighter_get_auth_headers "key" "secret" "post" "/api/v2/account/orders"
        (some [("account_id", PyVal.str "7")]) "1700000000000" =
      Except.ok
        [("Content-Type", "application/json"),
         ("X-Api-Key", "key"),
         ("X-Timestamp", "1700000000000"),
         ("X-Signature",
          hmac_sha256_hexdigest "secret"
            ("1700000000000" ++ py_upper "post" ++ "/api/v2/account/orders" ++
              json_dumps_obj ", " ": " [("account_id", PyVal.str "7")]))] ∧
    lighter_get_auth_headers "key" "secret" "GET" "/api/v2/account/positions"
        none "1700000000000" =
      Except.ok
        [("Content-Type", "application/json"),
         ("X-Api-Key", "key"),
         ("X-Timestamp", "1700000000000"),
         ("X-Signature",
          hmac_sha256_hexdigest "secret"
            ("1700000000000" ++ py_upper "GET" ++ "/api/v2/account/positions" ++
              ""))] := by
  constructor
  · exact (lighter_auth_headers_spec "key" "secret" "post"
      "/api/v2/account/orders" "1700000000000"
      [("account_id", PyVal.str "7")] (by decide) (by decide) (by decide)).1
  · exact (lighter_auth_headers_spec "key" "secret" "GET"
      "/api/v2/account/positions" "1700000000000"
      [("account_id", PyVal.str "7")] (by decide) (by decide) (by decide)).2

/-! ## Scheme B: Pacifica's asymmetric signer (claim C6) -/

/-- python-ed25519's SigningKey accepts a 32-byte seed or a 64-byte
expanded key and raises on any other length (external library
behavior). -/
def signing_key_len_ok (n : Nat) : Bool := n == 32 || n == 64

/-- pacifica.py check_api_keys (lines 73-77): raises ValueError
"API key is not set" on a falsy api key, then ValueError
"Private key is not set" on a falsy private key; modelled as the raised
message, none when it returns normally. -/
def check_api_keys (api_key private_key : String) : Option String :=
  if api_key = "" then some "API key is not set"
  else if private_key = "" then some "Private key is not set"
  else none

/-- pacifica.py create_signature (lines 79-112), parameterized by the
freshly generated millisecond timestamp and by the Ed25519 signing
primitive of the external `ed25519` package (key bytes and utf-8 message
bytes to signature bytes).  Line 82 calls
`check_api_keys(api_key="", private_key=private_key)`: the empty string is
always falsy, so this raises ValueError("API key is not set") on every
input — despite its own inline comment saying only the private key is
meant to be checked — and everything below line 82 (message construction,
base58 decode, Ed25519 signing, the try's ValueError re-raise) is dead
code, embedded here as written. -/
def create_signature (ed_sign : List Nat → List Nat → List Nat)
    (private_key request_str method : String)
    (params : List (String × PyVal)) (timestamp : String) :
    Except String (String × String) :=
  match check_api_keys "" private_key with
  | some msg => Except.error msg
  | none =>
    let query_string :=
      if (method = "GET" ∨ method = "DELETE") ∧ params ≠ [] then
        query_string_of params
      else ""
    let body_string :=
      if (method = "POST" ∨ method = "PUT") ∧ params ≠ [] then
        json_dumps_obj "," ":" params
      else ""
    let message := timestamp ++ method ++ request_str ++ query_string ++
      body_string
    match b58decode private_key with
    | none => Except.error "Error creating signature"
    | some key_bytes =>
      if signing_key_len_ok key_bytes.length then
        Except.ok (b58encode (ed_sign key_bytes (utf8_bytes message)),
          timestamp)
      else Except.error "Error creating signature"

/-- Shared fact: every create_signature call raises "API key is not set" —
the check at line 82 receives the empty api key, whose falsiness test
fires before the secret, the message or the primitive are ever looked
at. -/
theorem create_signature_api_key_raise
    (ed_sign : List Nat → List Nat → List Nat)
    (private_key request_str method : String)
    (params : List (String × PyVal)) (timestamp : String) :
    create_signature ed_sign private_key request_str method params
      timestamp = Except.error "API key is not set" := rfl

/-- Claim C6, evaluated against the code: the Scheme-B signer never signs
anything.  check_api_keys(api_key="") at pacifica.py line 82 raises
ValueError("API key is not set") on every input — whatever the secret, the
method, the path, the params, the timestamp, or the Ed25519 primitive —
before the message is built or the secret decoded, so neither the claimed
signature nor the claimed absent/malformed-secret error cases are
reachable. -/
theorem create_signature_never_signs
    (ed_sign : List Nat → List Nat → List Nat)
    (private_key request_str method : String)
    (params : List (String × PyVal)) (timestamp : String) :
    create_signature ed_sign private_key request_str method params
        timestamp = Except.error "API key is not set" ∧
    check_api_keys "" private_key = some "API key is not set" :=
  ⟨create_signature_api_key_raise ed_sign private_key request_str method
    params timestamp, rfl⟩

/-! ## Pacifica's request plumbing and poll cycle (claim C3, Pacifica half)

Client._request (pacifica.py lines 135-178) calls create_signature before
anything else and catches its ValueError, returning `{"error": str(e)}`
with no HTTP request.  Since create_signature raises on every input
(create_signature_api_key_raise), every _request returns the signing-error
dict with zero HTTP calls, and the HTTP branches at lines 156-178 — the
requests.get/post/delete calls and the HTTPError / RequestException /
JSON-decode conversions — are dead code, embedded below as written. -/

/-- What one Client._request call produced: the `error` entry of the
returned dict (none when the dict is a successful payload) and how many
HTTP requests went out. -/
structure RequestResult where
  error_msg : Option String
  http_calls : Nat
deriving DecidableEq

/-- pacifica.py Client._request: signature first (its ValueError becomes an
error dict with no HTTP call); the `outcome` parameter drives the would-be
HTTP branches, reachable only if create_signature returned normally. -/
def pacifica_request (ed_sign : List Nat → List Nat → List Nat)
    (private_key request_str method : String) (params : List (String × PyVal))
    (timestamp : String) (outcome : FetchOutcome) : RequestResult :=
  match create_signature ed_sign private_key request_str method params
      timestamp with
  | Except.error e => { error_msg := some e, http_calls := 0 }
  | Except.ok _ =>
    match outcome with
    | FetchOutcome.ok => { error_msg := none, http_calls := 1 }
    | FetchOutcome.httpError => { error_msg := some "HTTP Error", http_calls := 1 }
    | FetchOutcome.netError => { error_msg := some "Request Error", http_calls := 1 }
    | FetchOutcome.badJson =>
      { error_msg := some "Failed to decode JSON response", http_calls := 1 }

/-- PacificaAPI._poll_data (pacifica.py lines 314-391) with the client set
and the timer active, chaining its four fetches (market summary,
collateral, positions, open orders, in source order) through
Client._request.  A dict carrying `error` makes the code raise a plain
Exception, caught by the final generic `except Exception`, which only logs;
the `except requests.exceptions.RequestException` handler at lines 387-389
(stop_streaming) fires only for an exception _request lets escape, and
there is none.  Returns the cycle result and the total HTTP requests
issued. -/
def pacifica_poll_data (ed_sign : List Nat → List Nat → List Nat)
    (private_key account_address market_name : String)
    (ts1 ts2 ts3 ts4 : String) (o1 o2 o3 o4 : FetchOutcome) :
    PollCycleResult × Nat :=
  let r1 := pacifica_request ed_sign private_key
    ("/markets/" ++ market_name ++ "/summary") "GET" [] ts1 o1
  if r1.error_msg ≠ none then
    (⟨false, false, false, true, false⟩, r1.http_calls)
  else
    let r2 := pacifica_request ed_sign private_key "/collateral" "GET"
      [("token_name", PyVal.str "USDC"),
       ("account_address", PyVal.str account_address)] ts2 o2
    if r2.error_msg ≠ none then
      (⟨true, false, false, true, false⟩, r1.http_calls + r2.http_calls)
    else
      let r3 := pacifica_request ed_sign private_key "/positions" "GET"
        [("account_address", PyVal.str account_address),
         ("market_name", PyVal.str market_name)] ts3 o3
      if r3.error_msg ≠ none then
        (⟨true, false, false, true, false⟩,
         r1.http_calls + r2.http_calls + r3.http_calls)
      else
        let r4 := pacifica_request ed_sign private_key "/orders" "GET"
          [("market_name", PyVal.str market_name),
           ("account_address", PyVal.str account_address),
           ("status", PyVal.str "OPEN")] ts4 o4
        if r4.error_msg ≠ none then
          (⟨true, true, false, true, false⟩,
           r1.http_calls + r2.http_calls + r3.http_calls + r4.http_calls)
        else
          (⟨true, true, true, false, false⟩,
           r1.http_calls + r2.http_calls + r3.http_calls + r4.http_calls)

/-- Claim C3, evaluated against the code.  Lighter behaves as claimed: a
connectivity failure on a fetch stops streaming, an exchange-reported HTTP
error only logs while the schedule continues, and either aborts the rest
of the cycle.  Pacifica cannot: every poll cycle dies at its first fetch
with the signer's error dict — zero HTTP requests are ever issued, so no
network-connectivity failure can occur and nothing is ever emitted — the
failure is only logged, the schedule continues, and stop_streaming is
unreachable from a fetch failure. -/
theorem poll_network_failure_behavior :
    lighter_poll_data FetchOutcome.netError FetchOutcome.ok FetchOutcome.ok
        FetchOutcome.ok = ⟨false, false, false, true, true⟩ ∧
    lighter_poll_data FetchOutcome.ok FetchOutcome.httpError FetchOutcome.ok
        FetchOutcome.ok = ⟨true, false, false, true, false⟩ ∧
    ∀ (ed_sign : List Nat → List Nat → List Nat)
      (private_key account_address market_name ts1 ts2 ts3 ts4 : String)
      (o1 o2 o3 o4 : FetchOutcome),
      pacifica_poll_data ed_sign private_key account_address market_name
          ts1 ts2 ts3 ts4 o1 o2 o3 o4 =
        (⟨false, false, false, true, false⟩, 0) := by
  refine ⟨by decide, by decide, ?_⟩
  intro ed_sign private_key account_address market_name ts1 ts2 ts3 ts4
    o1 o2 o3 o4
  simp [pacifica_poll_data, pacifica_request, create_signature_api_key_raise]

/-! ## connect validation on the two adapters (claims C4 and C9) -/

/-- Outcome of the one confirmation call connect makes, as the Python code
distinguishes it: the looked-up key is present in the response dict
('serverTime' for Pacifica, 'balance' for Lighter), or absent / falsy
response, or the call raised (Lighter's _handle_response raises; Pacifica's
_request returns an error dict instead, which connect's else branch
handles identically to a missing key). -/
inductive ConfirmCall where
  | keyPresent
  | keyMissing
  | raised
deriving DecidableEq

/-- Result of connect: the returned bool and how many HTTP requests were
attempted. -/
structure ConnectOutcome where
  connected : Bool
  network_calls : Nat
deriving DecidableEq

/-- PacificaAPI.connect (pacifica.py lines 273-295) with the plumbing it
triggers: Client.__init__ runs check_api_keys(apiKey, apiSecret), whose
raise connect catches (False, no call); otherwise connect calls
get_server_time, i.e. _request("GET", "/utils/server_time") — which builds
the signature first and returns its ValueError as an error dict with no
HTTP call; only if the signature were produced would one HTTP request go
out and `'serverTime' in response` decide the outcome.  Since
create_signature raises on every input, that branch is dead:
creds.accountAddress is never inspected and no HTTP request is ever
made. -/
def pacifica_connect (ed_sign : List Nat → List Nat → List Nat)
    (creds : ApiCredentials) (timestamp : String) (confirm : ConfirmCall) :
    ConnectOutcome :=
  match check_api_keys creds.apiKey creds.apiSecret with
  | some _ => ⟨false, 0⟩
  | none =>
    match create_signature ed_sign creds.apiSecret "/utils/server_time"
        "GET" [] timestamp with
    | Except.error _ => ⟨false, 0⟩
    | Except.ok _ =>
      if confirm = ConfirmCall.keyPresent then ⟨true, 1⟩ else ⟨false, 1⟩

/-- Python truthiness of an Optional[int]: None and 0 are falsy. -/
def int_truthy : Option Int → Bool
  | none => false
  | some n => !(n == 0)

/-- Python truthiness of an Optional[str]: None and "" are falsy. -/
def str_truthy : Option String → Bool
  | none => false
  | some s => !(s == "")

/-- LighterAPI.connect (lighter.py lines 245-271): `if not creds.accountId
or not creds.l1Address` fails before building any client; otherwise
get_account_collateral builds auth headers first, which raise on an empty
api key or secret before any HTTP call (caught by connect); otherwise
exactly one HTTP request is made and `response and 'balance' in response`
decides the outcome. -/
def lighter_connect (creds : ApiCredentials) (confirm : ConfirmCall) :
    ConnectOutcome :=
  if int_truthy creds.accountId = false ∨ str_truthy creds.l1Address = false then
    ⟨false, 0⟩
  else if creds.apiKey = "" ∨ creds.apiSecret = "" then ⟨false, 0⟩
  else if confirm = ConfirmCall.keyPresent then ⟨true, 1⟩
  else ⟨false, 1⟩

/-- Claim C4 counterexample: Pacifica's connect, given complete well-formed
credentials (nonempty api key, decodable 32-byte base58 secret, wallet
address present), performs zero network calls and fails — no lightweight
confirmation call is ever made, because the signer raises before any
HTTP. -/
theorem pacifica_connect_no_confirmation_call_cex :
    pacifica_connect (fun _ _ => [0])
      { apiKey := "key", apiSecret := "11111111111111111111111111111111",
        accountAddress := some "9yQ6mQpaHdUQvUnWNgKQA1tB9NfT3arD2MS3RJqqWKMj" }
      "1700000000000" ConfirmCall.keyPresent =
      { connected := false, network_calls := 0 } := by
  decide

/-- Claim C4 as amended: Lighter's connect validates the numeric account id
and the L1 address before any network call — a falsy account id returns
failure with zero network calls — and when that validation and the
nonempty key/secret check pass it performs exactly one confirmation call,
with no retry.  Pacifica's connect checks only the non-emptiness of the
api key and secret (via the client constructor) and never the wallet
address; because its signer raises on every request, the confirmation call
is aborted before any HTTP, and connect always returns failure with zero
network calls. -/
theorem connect_validation_amended (creds : ApiCredentials)
    (confirm : ConfirmCall) (ed_sign : List Nat → List Nat → List Nat)
    (timestamp : String) :
    (int_truthy creds.accountId = false →
      lighter_connect creds confirm = ⟨false, 0⟩) ∧
    (int_truthy creds.accountId = true → str_truthy creds.l1Address = true →
      creds.apiKey ≠ "" → creds.apiSecret ≠ "" →
      (lighter_connect creds confirm).network_calls = 1) ∧
    pacifica_connect ed_sign creds timestamp confirm = ⟨false, 0⟩ := by
  refine ⟨?_, ?_, ?_⟩
  · intro h
    rw [lighter_connect, if_pos (Or.inl h)]
  · intro hid hl1 hk hs
    rw [lighter_connect, if_neg (by simp [hid, hl1]),
      if_neg (not_or.mpr ⟨hk, hs⟩)]
    cases confirm <;> rfl
  · cases hc : check_api_keys creds.apiKey creds.apiSecret with
    | some msg => simp [pacifica_connect, hc]
    | none => simp [pacifica_connect, hc, create_signature_api_key_raise]

/-- Witness for the amended C4 at concrete credentials: a missing Lighter
account id is rejected with zero calls; valid Lighter credentials make one
call; Pacifica with full well-formed credentials makes zero calls and
fails. -/
theorem connect_validation_amended_witness :
    lighter_connect { apiKey := "k", apiSecret := "s", l1Address := some "0xabc" }
        ConfirmCall.keyPresent = ⟨false, 0⟩ ∧
    (lighter_connect
        { apiKey := "k", apiSecret := "s", accountId := some 5,
          l1Address := some "0xabc" }
        ConfirmCall.keyPresent).network_calls = 1 ∧
    pacifica_connect (fun _ _ => [0, 1])
        { apiKey := "key2", apiSecret := "11111111111111111111111111111111",
          accountAddress := some "addr" }
        "100" ConfirmCall.keyPresent = ⟨false, 0⟩ := by
  refine ⟨?_, ?_, ?_⟩
  · exact (connect_validation_amended
      { apiKey := "k", apiSecret := "s", l1Address := some "0xabc" }
      ConfirmCall.keyPresent (fun _ _ => [0, 1]) "100").1 (by decide)
  · exact (connect_validation_amended
      { apiKey := "k", apiSecret := "s", accountId := some 5,
        l1Address := some "0xabc" }
      ConfirmCall.keyPresent (fun _ _ => [0, 1]) "100").2.1
      (by decide) (by decide) (by decide) (by decide)
  · exact (connect_validation_amended
      { apiKey := "key2", apiSecret := "11111111111111111111111111111111",
        accountAddress := some "addr" }
      ConfirmCall.keyPresent (fun _ _ => [0, 1]) "100").2.2

/-- Claim C9: Lighter's connect with accountId present but equal to 0 fails
with no network call attempted — the Python truthiness test
`not creds.accountId` conflates the valid numeric account id 0 (the very
example value the UI's account-id field shows) with a missing one — and
the outcome is identical to connect with accountId missing entirely. -/
theorem lighter_connect_zero_account_id (creds : ApiCredentials)
    (confirm : ConfirmCall) (h : creds.accountId = some 0) :
    lighter_connect creds confirm = { connected := false, network_calls := 0 } ∧
    lighter_connect creds confirm =
      lighter_connect { creds with accountId := none } confirm := by
  have h1 : int_truthy creds.accountId = false := by rw [h]; rfl
  have h2 : int_truthy ({ creds with accountId := none } :
      ApiCredentials).accountId = false := rfl
  constructor
  · rw [lighter_connect, if_pos (Or.inl h1)]
  · rw [lighter_connect, if_pos (Or.inl h1), lighter_connect,
      if_pos (Or.inl h2)]

/-- Witness for C9 at concrete credentials carrying accountId = 0 and an
otherwise-complete credential set. -/
theorem lighter_connect_zero_account_id_witness :
    lighter_connect
        { apiKey := "k", apiSecret := "s", accountId := some 0,
          l1Address := some "0xabc" }
        ConfirmCall.keyPresent = { connected := false, network_calls := 0 } :=
  (lighter_connect_zero_account_id
    { apiKey := "k", apiSecret := "s", accountId := some 0,
      l1Address := some "0xabc" }
    ConfirmCall.keyPresent rfl).1

end DexHedger
